import Mathlib

/-!
Shallow embedding of the supabase-go-sdk query-builder layer
(src/client.go, src/table.go) and proofs about its claims.

Modelling conventions:
* Go `interface{}` values that can occur in filter positions are modelled
  by the inductive `GoValue`.  Non-nil `*string` / `*int` pointers carry,
  besides the pointed-to value, the address string that Go's `fmt` verb
  `%v` would print for the pointer itself (an opaque runtime artefact).
* `time.Time` values are modelled by `GoTime` (broken-down civil time plus
  a UTC offset and zone name); `Format(time.RFC3339Nano)` and the default
  `String()` rendering are implemented below.
* Go strings are modelled by Lean `String`; all strings occurring in the
  claims are ASCII, so Go's byte-based slicing and byte-wise sorting agree
  with Lean's character-based `String.drop` and lexicographic order.
* `url.Values` is modelled by the list of (key, value) pairs in the order
  they were `Add`ed; `Encode` sorts the distinct keys, groups the values
  of each key in insertion order and percent-escapes keys and values.
* The HTTP round trip itself is out of scope; each terminal operation is
  split into a pure request-construction function and a pure
  response-status handler (`Except` models the returned `error`).
-/

namespace Supabase

/-- Broken-down Go `time.Time` value: civil fields, nanoseconds, the UTC
offset in minutes and the zone abbreviation (used only by `String()`). -/
structure GoTime where
  year : Nat
  month : Nat
  day : Nat
  hour : Nat
  minute : Nat
  second : Nat
  nanos : Nat
  offsetMinutes : Int
  zoneName : String
deriving DecidableEq, Repr

/-- Left-pad a decimal rendering with zeros to the given width
(Go's zero-padded numeric layout fields). -/
def padZero (width : Nat) (n : Nat) : String :=
  let s := toString n
  if s.length < width then String.mk (List.replicate (width - s.length) '0') ++ s
  else s

/-- Drop trailing '0' characters (Go's `.999999999` fractional layout
omits trailing zeros). -/
def dropTrailingZeros (s : String) : String :=
  String.mk ((s.data.reverse.dropWhile (fun c => c = '0')).reverse)

/-- The fractional-second part produced by the `.999999999` layout:
empty when the nanosecond field is zero, otherwise a dot followed by the
nine-digit field with trailing zeros removed. -/
def nanoFraction (nanos : Nat) : String :=
  if nanos = 0 then "" else "." ++ dropTrailingZeros (padZero 9 nanos)

/-- The `Z07:00` layout: "Z" for a zero offset, otherwise a signed
hh:mm offset. -/
def offsetColon (offsetMinutes : Int) : String :=
  if offsetMinutes = 0 then "Z"
  else
    let sign := if offsetMinutes < 0 then "-" else "+"
    let m := offsetMinutes.natAbs
    sign ++ padZero 2 (m / 60) ++ ":" ++ padZero 2 (m % 60)

/-- The `-0700` layout: a signed hhmm offset (no colon, no "Z" form). -/
def offsetPlain (offsetMinutes : Int) : String :=
  let sign := if offsetMinutes < 0 then "-" else "+"
  let m := offsetMinutes.natAbs
  sign ++ padZero 2 (m / 60) ++ padZero 2 (m % 60)

/-- `t.Format(time.RFC3339Nano)`:
layout `2006-01-02T15:04:05.999999999Z07:00`. -/
def GoTime.rfc3339Nano (t : GoTime) : String :=
  padZero 4 t.year ++ "-" ++ padZero 2 t.month ++ "-" ++ padZero 2 t.day ++
  "T" ++ padZero 2 t.hour ++ ":" ++ padZero 2 t.minute ++ ":" ++
  padZero 2 t.second ++ nanoFraction t.nanos ++ offsetColon t.offsetMinutes

/-- `t.String()`: layout `2006-01-02 15:04:05.999999999 -0700 MST`
(the monotonic-clock suffix is absent for wall-clock values). -/
def GoTime.goString (t : GoTime) : String :=
  padZero 4 t.year ++ "-" ++ padZero 2 t.month ++ "-" ++ padZero 2 t.day ++
  " " ++ padZero 2 t.hour ++ ":" ++ padZero 2 t.minute ++ ":" ++
  padZero 2 t.second ++ nanoFraction t.nanos ++ " " ++
  offsetPlain t.offsetMinutes ++ " " ++ t.zoneName

/-- A Go `interface{}` value in a filter position.  `vnil` is the untyped
nil interface; `vnilStrPtr`, `vnilIntPtr`, `vnilTimePtr` are nil typed
pointers (`(*string)(nil)` etc.) boxed in an interface; non-nil pointers
carry the pointed-to value and the address string `%v` prints for them. -/
inductive GoValue where
  | vnil
  | vnilStrPtr
  | vnilIntPtr
  | vnilTimePtr
  | vstr (s : String)
  | vint (n : Int)
  | vstrPtr (s : String) (addr : String)
  | vintPtr (n : Int) (addr : String)
  | vtimePtr (t : GoTime) (addr : String)
deriving DecidableEq, Repr

/-- The null representations recognised by `simpleFilter.toQuery`
(src/table.go lines 37-54): the untyped nil and the three nil typed
pointers it switches on. -/
def isNullRep : GoValue → Bool
  | .vnil => true
  | .vnilStrPtr => true
  | .vnilIntPtr => true
  | .vnilTimePtr => true
  | _ => false

/-- `fmt.Sprintf("%v", value)` for the values of `GoValue`: nil interface
and nil pointers print `<nil>`; strings print themselves; ints print in
decimal; non-nil `*string` / `*int` print their address; a non-nil
`*time.Time` prints via the `Stringer` it inherits from `time.Time`. -/
def goFormatV : GoValue → String
  | .vnil => "<nil>"
  | .vnilStrPtr => "<nil>"
  | .vnilIntPtr => "<nil>"
  | .vnilTimePtr => "<nil>"
  | .vstr s => s
  | .vint n => toString n
  | .vstrPtr _ _ => "<addr>"
  | .vintPtr _ _ => "<addr>"
  | .vtimePtr t _ => t.goString

/-- A `Filter` (src/table.go lines 26-64): either a `simpleFilter`
(field, operator, value) or a `groupFilter` ("and"/"or" over children). -/
inductive Filter where
  | simple (field : String) (op : String) (value : GoValue)
  | group (operator : String) (filters : List Filter)

mutual

/-- `Filter.toQuery` (src/table.go lines 36-72): a null-representation
value renders as `field.is.null`; op "in" renders `field.in.<value>`;
otherwise `field.op.<value>`; a group renders as
`operator(child1,child2,...)`. -/
def Filter.toQuery : Filter → String
  | .simple field op v =>
      if isNullRep v then field ++ ".is.null"
      else if op = "in" then field ++ ".in." ++ goFormatV v
      else field ++ "." ++ op ++ "." ++ goFormatV v
  | .group operator fs => operator ++ "(" ++ String.intercalate "," (toQueryList fs) ++ ")"

/-- The rendered children of a group, in order (the loop at
src/table.go lines 67-70). -/
def toQueryList : List Filter → List String
  | [] => []
  | f :: fs => Filter.toQuery f :: toQueryList fs

end

/-- `Eq` constructor (src/table.go line 75). -/
def F.Eq (field : String) (value : GoValue) : Filter := .simple field "eq" value

/-- `NotEq` constructor. -/
def F.NotEq (field : String) (value : GoValue) : Filter := .simple field "neq" value

/-- `Gt` constructor. -/
def F.Gt (field : String) (value : GoValue) : Filter := .simple field "gt" value

/-- `Lt` constructor. -/
def F.Lt (field : String) (value : GoValue) : Filter := .simple field "lt" value

/-- `Gte` constructor. -/
def F.Gte (field : String) (value : GoValue) : Filter := .simple field "gte" value

/-- `Lte` constructor. -/
def F.Lte (field : String) (value : GoValue) : Filter := .simple field "lte" value

/-- `Like` constructor (the Go signature takes a string pattern). -/
def F.Like (field : String) (pattern : String) : Filter := .simple field "like" (.vstr pattern)

/-- `ILike` constructor. -/
def F.ILike (field : String) (pattern : String) : Filter := .simple field "ilike" (.vstr pattern)

/-- Element stringification inside `In` (src/table.go lines 101-129):
nil and nil typed pointers become the literal token "null"; a non-nil
`*string` dereferences; a non-nil `*int` prints `%d`; a non-nil
`*time.Time` formats as RFC3339Nano; anything else prints `%v`. -/
def inElemString : GoValue → String
  | .vnil => "null"
  | .vnilStrPtr => "null"
  | .vnilIntPtr => "null"
  | .vnilTimePtr => "null"
  | .vstrPtr s _ => s
  | .vintPtr n _ => toString n
  | .vtimePtr t _ => t.rfc3339Nano
  | v => goFormatV v

/-- `In` constructor (src/table.go lines 99-132): the elements are
stringified, joined with commas, wrapped in parentheses and stored as the
string value of a simple filter with op "in". -/
def F.In (field : String) (values : List GoValue) : Filter :=
  .simple field "in" (.vstr ("(" ++ String.intercalate "," (values.map inElemString) ++ ")"))

/-- `And` constructor (src/table.go line 133). -/
def F.And (filters : List Filter) : Filter := .group "and" filters

/-- `Or` constructor (src/table.go line 136). -/
def F.Or (filters : List Filter) : Filter := .group "or" filters

/-- `Client` (src/client.go): base URL and API key.  The HTTP transport
handle is out of scope of the embedding. -/
structure Client where
  BaseURL : String
  APIKey : String
deriving DecidableEq, Repr

/-- The `REST_URL` path-prefix constant from the repository's endpoint
constants block (src/unnamed/part_002 line 627). -/
def REST_URL : String := "/rest/v1"

/-- `STORAGE_URL` (src/unnamed/part_002 line 628; unused by any
implemented operation). -/
def STORAGE_URL : String := "/storage/v1"

/-- `AUTH_URL` (src/unnamed/part_002 line 629; unused by any implemented
operation). -/
def AUTH_URL : String := "/auth/v1"

/-- `FUNCTIONS_URL` (src/unnamed/part_002 line 630; unused by any
implemented operation). -/
def FUNCTIONS_URL : String := "/functions/v1"

/-- An order clause (src/table.go lines 141-144). -/
structure Order where
  field : String
  direction : String
deriving DecidableEq, Repr

/-- `Table` builder state (src/table.go lines 15-23).  Go's zero values
give a fresh builder empty lists and limit = offset = 0; `limit` and
`offset` are Go `int`, modelled as `Int`. -/
structure Table where
  client : Client
  tableName : String
  filters : List Filter
  orders : List Order
  limit : Int
  offset : Int
  selectCols : List String

/-- `Client.Table` (src/table.go lines 147-152): a fresh builder for the
named table with zero-value state. -/
def Client.Table (c : Client) (name : String) : Table :=
  { client := c, tableName := name, filters := [], orders := [],
    limit := 0, offset := 0, selectCols := [] }

/-- `Table.AddFilter` (src/table.go lines 155-158). -/
def Table.AddFilter (t : Table) (f : Filter) : Table :=
  { t with filters := t.filters ++ [f] }

/-- Chainable `Table.Eq` (src/table.go line 161). -/
def Table.Eq (t : Table) (field : String) (value : GoValue) : Table :=
  t.AddFilter (F.Eq field value)

/-- Chainable `Table.NotEq`. -/
def Table.NotEq (t : Table) (field : String) (value : GoValue) : Table :=
  t.AddFilter (F.NotEq field value)

/-- Chainable `Table.Gt`. -/
def Table.Gt (t : Table) (field : String) (value : GoValue) : Table :=
  t.AddFilter (F.Gt field value)

/-- Chainable `Table.In`. -/
def Table.In (t : Table) (field : String) (values : List GoValue) : Table :=
  t.AddFilter (F.In field values)

/-- Chainable `Table.And`. -/
def Table.And (t : Table) (filters : List Filter) : Table :=
  t.AddFilter (F.And filters)

/-- Chainable `Table.Or`. -/
def Table.Or (t : Table) (filters : List Filter) : Table :=
  t.AddFilter (F.Or filters)

/-- `Table.Limit` (src/table.go lines 178-181): overwrites the stored
limit. -/
def Table.Limit (t : Table) (n : Int) : Table := { t with limit := n }

/-- `Table.Offset` (src/table.go lines 194-197): overwrites the stored
offset. -/
def Table.Offset (t : Table) (n : Int) : Table := { t with offset := n }

/-- `Table.OrderBy` (src/table.go lines 184-191): the direction is
lower-cased and anything other than "asc"/"desc" falls back to "asc". -/
def Table.OrderBy (t : Table) (field direction : String) : Table :=
  let dir := direction.toLower
  let dir := if dir ≠ "asc" ∧ dir ≠ "desc" then "asc" else dir
  { t with orders := t.orders ++ [⟨field, dir⟩] }

/-- `Table.SelectColumns` (src/table.go lines 200-203): overwrites the
projection list. -/
def Table.SelectColumns (t : Table) (cols : List String) : Table :=
  { t with selectCols := cols }

/-- The UTF-8 bytes of a character (as `Nat`s below 256). -/
def utf8Bytes (c : Char) : List Nat :=
  let n := c.toNat
  if n < 0x80 then [n]
  else if n < 0x800 then
    [0xC0 ||| (n >>> 6), 0x80 ||| (n &&& 0x3F)]
  else if n < 0x10000 then
    [0xE0 ||| (n >>> 12), 0x80 ||| ((n >>> 6) &&& 0x3F), 0x80 ||| (n &&& 0x3F)]
  else
    [0xF0 ||| (n >>> 18), 0x80 ||| ((n >>> 12) &&& 0x3F),
     0x80 ||| ((n >>> 6) &&& 0x3F), 0x80 ||| (n &&& 0x3F)]

/-- Upper-case hexadecimal digit, as used by Go's percent-escaping. -/
def hexUpper (n : Nat) : Char :=
  if n < 10 then Char.ofNat (48 + n) else Char.ofNat (55 + n)

/-- Percent-escape one byte. -/
def percentByte (b : Nat) : String :=
  String.mk ['%', hexUpper (b / 16), hexUpper (b % 16)]

/-- `url.QueryEscape` on one character: ASCII alphanumerics and `-_.~`
pass through, a space becomes '+', every other byte of the character's
UTF-8 encoding is percent-escaped with upper-case hex. -/
def escapeChar (c : Char) : String :=
  if c.isAlphanum ∧ c.toNat < 128 then String.singleton c
  else if c = '-' ∨ c = '_' ∨ c = '.' ∨ c = '~' then String.singleton c
  else if c = ' ' then "+"
  else String.join ((utf8Bytes c).map percentByte)

/-- `url.QueryEscape` on a string. -/
def queryEscape (s : String) : String :=
  String.join (s.data.map escapeChar)

/-- Lexicographic comparison of character lists by code point (for
strings this coincides with Go's byte-wise string order, since UTF-8
byte order agrees with code-point order). -/
def charsLe : List Char → List Char → Bool
  | [], _ => true
  | _ :: _, [] => false
  | a :: as, b :: bs =>
      if a.toNat < b.toNat then true
      else if b.toNat < a.toNat then false
      else charsLe as bs

/-- Go's string order, used by `sort.Strings` inside `url.Values.Encode`. -/
def goStrLe (a b : String) : Bool := charsLe a.data b.data

/-- Insert a string into a sorted list. -/
def insertSorted (a : String) : List String → List String
  | [] => [a]
  | b :: bs => if goStrLe a b then a :: b :: bs else b :: insertSorted a bs

/-- Sort a list of strings (insertion sort). -/
def sortStrings : List String → List String
  | [] => []
  | a :: as => insertSorted a (sortStrings as)

/-- `url.Values.Encode` over the insertion-ordered (key, value) list: the
distinct keys in sorted order, each key's values in insertion order, each
pair rendered `escapedKey=escapedValue` and joined with '&'. -/
def encodeParams (ps : List (String × String)) : String :=
  let keys := sortStrings ((ps.map Prod.fst).eraseDups)
  String.intercalate "&" (keys.map (fun k =>
    String.intercalate "&" ((ps.filter (fun p => p.1 = k)).map
      (fun p => queryEscape k ++ "=" ++ queryEscape p.2))))

/-- The filter-rendering loop of `Table.Select` (src/table.go lines
208-218): a simple filter whose value is the untyped nil is skipped; any
other simple filter adds the parameter `field = op.<%v of value>`; a group
filter adds the parameter `operator = toQuery with its first
len(operator)+1 bytes removed`. -/
def selectFilterParams : List Filter → List (String × String)
  | [] => []
  | .simple field op v :: rest =>
      if v = .vnil then selectFilterParams rest
      else (field, op ++ "." ++ goFormatV v) :: selectFilterParams rest
  | .group operator fs :: rest =>
      (operator, (Filter.toQuery (.group operator fs)).drop (operator.length + 1)) ::
        selectFilterParams rest

/-- The filter-rendering loop of `Table.Update` (src/table.go lines
313-320): like the Select loop but without the nil skip. -/
def updateFilterParams : List Filter → List (String × String)
  | [] => []
  | .simple field op v :: rest =>
      (field, op ++ "." ++ goFormatV v) :: updateFilterParams rest
  | .group operator fs :: rest =>
      (operator, (Filter.toQuery (.group operator fs)).drop (operator.length + 1)) ::
        updateFilterParams rest

/-- The limit parameter of `Table.Select` (src/table.go lines 219-221):
present exactly when the stored limit is strictly positive. -/
def limitParams (t : Table) : List (String × String) :=
  if 0 < t.limit then [("limit", toString t.limit)] else []

/-- The offset parameter (src/table.go lines 222-224). -/
def offsetParams (t : Table) : List (String × String) :=
  if 0 < t.offset then [("offset", toString t.offset)] else []

/-- The order parameter (src/table.go lines 225-231). -/
def orderParams (t : Table) : List (String × String) :=
  if t.orders = [] then []
  else [("order", String.intercalate ","
          (t.orders.map (fun o => o.field ++ "." ++ o.direction)))]

/-- The select (projection) parameter (src/table.go lines 232-236):
defaults to "*" when no columns were set. -/
def selectColParams (t : Table) : List (String × String) :=
  if t.selectCols = [] then [("select", "*")]
  else [("select", String.intercalate "," t.selectCols)]

/-- All query parameters added by `Table.Select`, in `Add` order. -/
def selectParams (t : Table) : List (String × String) :=
  selectFilterParams t.filters ++ limitParams t ++ offsetParams t ++
    orderParams t ++ selectColParams t

/-- All query parameters added by `Table.Update` (filters only,
src/table.go lines 312-320). -/
def updateParams (t : Table) : List (String × String) :=
  updateFilterParams t.filters

/-- All query parameters added by `Table.Delete` (src/table.go lines
354-357): one parameter named "or" per accumulated filter, holding the
filter's full rendered predicate. -/
def deleteParams (t : Table) : List (String × String) :=
  t.filters.map (fun f => ("or", f.toQuery))

/-- The endpoint URL built by `Table.Select` (src/table.go lines
238-241). -/
def selectEndpoint (t : Table) : String :=
  let e := t.client.BaseURL ++ REST_URL ++ "/" ++ t.tableName
  if selectParams t = [] then e else e ++ "?" ++ encodeParams (selectParams t)

/-- An HTTP request as constructed by the terminal operations: method,
full URL, and headers in the order they are set. -/
structure HttpRequest where
  method : String
  url : String
  headers : List (String × String)
deriving DecidableEq, Repr

/-- The request constructed by `Table.Select` (src/table.go lines
243-251): GET, the endpoint with encoded query, the apikey header, a
bearer Authorization header only for a non-empty token, and Accept. -/
def selectRequest (t : Table) (jwtToken : String) : HttpRequest :=
  { method := "GET"
    url := selectEndpoint t
    headers :=
      [("apikey", t.client.APIKey)] ++
      (if jwtToken ≠ "" then [("Authorization", "Bearer " ++ jwtToken)] else []) ++
      [("Accept", "application/json")] }

/-- `Table.Select`'s query rendering as a state-passing computation: the
Go method reads the builder fields but never assigns to them, so the
returned builder state is the input state unchanged. -/
def selectRender (t : Table) : String × Table :=
  (encodeParams (selectParams t), t)

/-- The response-status handling of `Table.Select` (src/table.go lines
258-262): a status of at least 400 yields the error
`supabase: select failed: <body>`; otherwise the body is decoded
(decoding is out of scope; the raw body is returned). -/
def selectHandleResponse (status : Nat) (body : String) : Except String String :=
  if 400 ≤ status then .error ("supabase: select failed: " ++ body) else .ok body

/-- The response-status handling of `Table.Insert` (src/table.go lines
297-300). -/
def insertHandleResponse (status : Nat) (body : String) : Except String String :=
  if 400 ≤ status then .error ("supabase: insert failed: " ++ body) else .ok body

/-- The response-status handling of `Table.Update` (src/table.go lines
345-348). -/
def updateHandleResponse (status : Nat) (body : String) : Except String String :=
  if 400 ≤ status then .error ("supabase: update failed: " ++ body) else .ok body

/-- The response-status handling of `Table.Delete` (src/table.go lines
378-381). -/
def deleteHandleResponse (status : Nat) (body : String) : Except String String :=
  if 400 ≤ status then .error ("supabase: delete failed: " ++ body) else .ok body

/-- A parenthesis-balance scanner: depth never drops below zero and ends
at zero. -/
def parenBalancedAux : List Char → Int → Bool
  | [], d => d = 0
  | c :: cs, d =>
      let d2 : Int := if c = '(' then d + 1 else if c = ')' then d - 1 else d
      if d2 < 0 then false else parenBalancedAux cs d2

/-- Whether a string's parentheses are balanced. -/
def parenBalanced (s : String) : Bool := parenBalancedAux s.data 0

/-- The rendered-children list of a group is the map of `toQuery` over
its children. -/
theorem toQueryList_eq_map (fs : List Filter) :
    toQueryList fs = fs.map Filter.toQuery := by
  induction fs with
  | nil => rfl
  | cons f fs ih => simp [toQueryList, ih]

/-- Every null representation prints as `<nil>` under the `%v` verb. -/
theorem goFormatV_of_nullRep (v : GoValue) (h : isNullRep v = true) :
    goFormatV v = "<nil>" := by
  cases v <;> simp_all [isNullRep, goFormatV]

/-- C1: for every simple filter whose value is the null representation
(the untyped nil or a nil typed pointer) and every requested operator
among eq, neq, gt, lt, gte, lte, like, ilike, in, `toQuery` renders the
predicate as `<field>.is.null`. -/
theorem c1_null_value_renders_is_null (field op : String) (v : GoValue)
    (hnull : isNullRep v = true)
    (_hop : op ∈ (["eq", "neq", "gt", "lt", "gte", "lte", "like", "ilike", "in"] : List String)) :
    (Filter.simple field op v).toQuery = field ++ ".is.null" := by
  simp [Filter.toQuery, hnull]

/-- Witness for C1 at a concrete input: a neq filter over a nil typed
time pointer renders as `deleted_at.is.null`. -/
theorem c1_witness :
    (Filter.simple "deleted_at" "neq" GoValue.vnilTimePtr).toQuery =
      "deleted_at" ++ ".is.null" :=
  c1_null_value_renders_is_null "deleted_at" "neq" .vnilTimePtr (by decide) (by decide)

/-- C2 counterexample: the claim says a null-valued simple filter is, in
Select and Update, either omitted or rendered as is.null.  On Update with
the filter Eq("f", nil) the code renders the parameter ("f", "eq.<nil>"),
which is neither an omission nor an is.null rendering, so the claim as
stated is false. -/
theorem c2_counterexample :
    updateParams ((Client.Table ⟨"B", "K"⟩ "x").Eq "f" .vnil) = [("f", "eq.<nil>")] ∧
    ¬(updateParams ((Client.Table ⟨"B", "K"⟩ "x").Eq "f" .vnil) = [] ∨
      ∀ p ∈ updateParams ((Client.Table ⟨"B", "K"⟩ "x").Eq "f" .vnil), p.2 = "is.null") := by
  constructor
  · rfl
  · decide

/-- C2 amended: in Select, a simple filter whose value is the untyped nil
contributes no query parameter; a simple filter whose value is any other
null representation (a nil typed pointer) is rendered by Select as
`<op>.<nil>`; in Update every null-valued simple filter is rendered as
`<op>.<nil>`.  No is.null rendering occurs in either loop. -/
theorem c2_amended_null_rendering (field op : String) (v : GoValue)
    (rest : List Filter) (hnull : isNullRep v = true) :
    selectFilterParams (.simple field op .vnil :: rest) = selectFilterParams rest ∧
    (v ≠ .vnil →
      selectFilterParams (.simple field op v :: rest) =
        (field, op ++ "." ++ "<nil>") :: selectFilterParams rest) ∧
    updateFilterParams (.simple field op v :: rest) =
      (field, op ++ "." ++ "<nil>") :: updateFilterParams rest := by
  have hfmt : goFormatV v = "<nil>" := goFormatV_of_nullRep v hnull
  refine ⟨by simp [selectFilterParams], ?_, by simp [updateFilterParams, hfmt]⟩
  intro hne
  simp [selectFilterParams, hne, hfmt]

/-- Witness for C2's amended claim at concrete inputs: a nil typed string
pointer renders as `eq.<nil>` in both the Select and the Update loop. -/
theorem c2_witness :
    selectFilterParams [Filter.simple "f" "eq" .vnilStrPtr] =
      [("f", "eq" ++ "." ++ "<nil>")] ∧
    updateFilterParams [Filter.simple "f" "eq" .vnilStrPtr] =
      [("f", "eq" ++ "." ++ "<nil>")] :=
  ⟨(c2_amended_null_rendering "f" "eq" .vnilStrPtr [] (by decide)).2.1 (by decide),
   (c2_amended_null_rendering "f" "eq" .vnilStrPtr [] (by decide)).2.2⟩

/-- C3 (code bug): the claim — matching the code's own comment "remove
operator prefix" and the PostgREST group syntax — says the group
parameter's value is the parenthesized child rendering "(f1.eq.v1)".
The code slices off len(operator)+1 bytes of "and(f1.eq.v1)", one byte
too many, so the opening parenthesis is lost and both Select and Update
emit the unbalanced value "f1.eq.v1)".  Evaluation at the failing
input. -/
theorem c3_group_param_missing_open_paren :
    selectFilterParams [F.And [F.Eq "f1" (.vstr "v1")]] = [("and", "f1.eq.v1)")] ∧
    updateFilterParams [F.And [F.Eq "f1" (.vstr "v1")]] = [("and", "f1.eq.v1)")] ∧
    (F.And [F.Eq "f1" (.vstr "v1")]).toQuery = "and(f1.eq.v1)" ∧
    parenBalanced "f1.eq.v1)" = false ∧
    ("f1.eq.v1)" : String) ≠ "(f1.eq.v1)" :=
  ⟨rfl, rfl, rfl, by decide, by decide⟩

/-- C4: Delete renders every accumulated filter, whatever its shape, as a
query parameter named "or" holding the filter's full `toQuery` rendering:
the parameter list has one "or"-named entry per filter, in order, and no
field-named `operator.value` entries. -/
theorem c4_delete_or_combines (t : Table) :
    (deleteParams t).map Prod.fst = t.filters.map (fun _ => "or") ∧
    ∀ i : Nat, (deleteParams t)[i]? = (t.filters[i]?).map (fun f => ("or", f.toQuery)) := by
  constructor
  · simp [deleteParams, List.map_map, Function.comp_def]
  · intro i
    simp [deleteParams]

/-- C5: every terminal operation maps an HTTP status of at least 400 to
an error whose message is a fixed prefix followed by the full raw
response body, with no parsing of the body. -/
theorem c5_server_error_carries_raw_body (status : Nat) (body : String)
    (h : 400 ≤ status) :
    selectHandleResponse status body = .error ("supabase: select failed: " ++ body) ∧
    insertHandleResponse status body = .error ("supabase: insert failed: " ++ body) ∧
    updateHandleResponse status body = .error ("supabase: update failed: " ++ body) ∧
    deleteHandleResponse status body = .error ("supabase: delete failed: " ++ body) := by
  simp [selectHandleResponse, insertHandleResponse, updateHandleResponse,
        deleteHandleResponse, h]

/-- Witness for C5: a Select receiving HTTP 404 with body
"relation not found" yields an error whose message ends in exactly that
text. -/
theorem c5_witness :
    selectHandleResponse 404 "relation not found" =
      .error ("supabase: select failed: " ++ "relation not found") :=
  (c5_server_error_carries_raw_body 404 "relation not found" (by decide)).1

/-- C6: for a builder over table "tenants" whose only chained call is
Eq("user_id","u1"), Select with an empty token adds exactly the
parameters user_id=eq.u1 and select=* (projection defaulting to "*"),
issues one GET to `<baseURL>/rest/v1/tenants` with that query string
encoded (url.Values.Encode sorts the keys and escapes "*" to "%2A"),
sets the apikey header and sets no Authorization header.  The REST_URL
path prefix is the repository's constant "/rest/v1". -/
theorem c6_select_request_scenario (b k : String) :
    selectParams ((Client.Table ⟨b, k⟩ "tenants").Eq "user_id" (.vstr "u1")) =
      [("user_id", "eq.u1"), ("select", "*")] ∧
    selectRequest ((Client.Table ⟨b, k⟩ "tenants").Eq "user_id" (.vstr "u1")) "" =
      { method := "GET"
        url := b ++ "/rest/v1" ++ "/" ++ "tenants" ++ "?" ++ "select=%2A&user_id=eq.u1"
        headers := [("apikey", k), ("Accept", "application/json")] } ∧
    ∀ s : String,
      s ++ "/rest/v1" ++ "/" ++ "tenants" ++ "?" ++ "select=%2A&user_id=eq.u1" =
        s ++ "/rest/v1/tenants?select=%2A&user_id=eq.u1" := by
  refine ⟨rfl, rfl, fun s => ?_⟩
  apply String.ext
  simp [String.data_append]

/-- C7: group rendering is structurally recursive: the concrete example
renders as "and(f1.eq.v1,f2.gt.v2)"; in general a group renders as the
operator followed by the parenthesized comma-separated left-to-right
renderings of its children; the nested example renders with balanced
parentheses. -/
theorem c7_group_rendering_structural (op : String) (fs : List Filter) :
    (F.And [F.Eq "f1" (.vstr "v1"), F.Gt "f2" (.vstr "v2")]).toQuery =
      "and(f1.eq.v1,f2.gt.v2)" ∧
    (Filter.group op fs).toQuery =
      op ++ "(" ++ String.intercalate "," (fs.map Filter.toQuery) ++ ")" ∧
    (F.Or [F.And [F.Eq "a" (.vstr "1"), F.Gt "b" (.vstr "2")],
           F.Eq "c" (.vstr "3")]).toQuery = "or(and(a.eq.1,b.gt.2),c.eq.3)" ∧
    parenBalanced ((F.Or [F.And [F.Eq "a" (.vstr "1"), F.Gt "b" (.vstr "2")],
           F.Eq "c" (.vstr "3")]).toQuery) = true := by
  refine ⟨rfl, ?_, rfl, by decide⟩
  simp [Filter.toQuery, toQueryList_eq_map]

/-- C8: an In filter over [A, null, B] stores the list value "(A,null,B)"
and renders as `<field>.in.(A,null,B)`; a nil element or nil typed
pointer element stringifies to the literal token null; a non-nil time
pointer element stringifies as its RFC3339 form with nanosecond
precision; element order is preserved (the stored value is the
comma-join of the element strings in input order). -/
theorem c8_in_list_rendering (f A B : String) (t : GoTime) (addr : String)
    (v : GoValue) (hv : isNullRep v = true) :
    F.In f [.vstr A, .vnil, .vstr B] =
      .simple f "in" (.vstr ("(" ++ A ++ ",null," ++ B ++ ")")) ∧
    (F.In f [.vstr A, .vnil, .vstr B]).toQuery =
      f ++ ".in.(" ++ A ++ ",null," ++ B ++ ")" ∧
    inElemString v = "null" ∧
    inElemString (.vtimePtr t addr) = t.rfc3339Nano ∧
    ∀ vs : List GoValue,
      F.In f vs = .simple f "in"
        (.vstr ("(" ++ String.intercalate "," (vs.map inElemString) ++ ")")) := by
  refine ⟨?_, ?_, ?_, rfl, fun vs => rfl⟩
  · have hs : "(" ++ String.intercalate ","
        ([GoValue.vstr A, .vnil, .vstr B].map inElemString) ++ ")" =
        "(" ++ A ++ ",null," ++ B ++ ")" := by
      apply String.ext
      simp [inElemString, goFormatV, String.intercalate, String.intercalate.go,
            String.data_append]
    rw [F.In, hs]
  · apply String.ext
    simp [F.In, Filter.toQuery, isNullRep, inElemString, goFormatV,
          String.intercalate, String.intercalate.go, String.data_append]
  · cases v <;> simp_all [inElemString, isNullRep]

/-- Witness for C8 at concrete inputs: a nil typed int pointer element
stringifies to null, and the [A, null, B] example renders as
`f.in.(A,null,B)`. -/
theorem c8_witness :
    inElemString .vnilIntPtr = "null" ∧
    (F.In "f" [.vstr "A", .vnil, .vstr "B"]).toQuery =
      "f" ++ ".in.(" ++ "A" ++ ",null," ++ "B" ++ ")" :=
  ⟨(c8_in_list_rendering "f" "A" "B" ⟨2024, 1, 2, 3, 4, 5, 0, 0, "UTC"⟩ "0x1"
      .vnilIntPtr (by decide)).2.2.1,
   (c8_in_list_rendering "f" "A" "B" ⟨2024, 1, 2, 3, 4, 5, 0, 0, "UTC"⟩ "0x1"
      .vnilIntPtr (by decide)).2.1⟩

/-- C9: Select's query rendering, modelled as a state-passing computation
(the Go method reads the builder's fields and assigns to none of them),
leaves the builder state unchanged and therefore produces the identical
query string when performed twice without intervening chain calls. -/
theorem c9_render_idempotent (t : Table) :
    (selectRender t).2 = t ∧
    (selectRender ((selectRender t).2)).1 = (selectRender t).1 :=
  ⟨rfl, rfl⟩

/-- C10: the Select query carries a limit parameter exactly when the
stored limit is strictly positive, and an offset parameter exactly when
the stored offset is strictly positive; chaining Limit or Offset with a
zero or negative argument onto a fresh builder renders exactly like the
fresh builder itself, so a limit of zero cannot be expressed. -/
theorem c10_limit_offset (t : Table) (c : Client) (nm : String) (n : Int) :
    ((∃ s, ("limit", s) ∈ limitParams t) ↔ 0 < t.limit) ∧
    ((∃ s, ("offset", s) ∈ offsetParams t) ↔ 0 < t.offset) ∧
    (n ≤ 0 →
      selectParams ((c.Table nm).Limit n) = selectParams (c.Table nm) ∧
      selectParams ((c.Table nm).Offset n) = selectParams (c.Table nm)) := by
  refine ⟨?_, ?_, ?_⟩
  · unfold limitParams
    by_cases h : 0 < t.limit <;> simp [h]
  · unfold offsetParams
    by_cases h : 0 < t.offset <;> simp [h]
  · intro hn
    have h1 : ¬(0 : Int) < n := not_lt.mpr hn
    constructor <;>
      simp [selectParams, limitParams, offsetParams, orderParams,
            selectColParams, selectFilterParams, Client.Table, Table.Limit,
            Table.Offset, h1]

/-- Witness for C10 at concrete inputs: a builder with limit 5 carries a
limit parameter, and chaining Limit(-1) onto a fresh builder renders the
same parameters as the fresh builder. -/
theorem c10_witness :
    (∃ s, ("limit", s) ∈ limitParams ((Client.Table ⟨"B", "K"⟩ "x").Limit 5)) ∧
    selectParams ((Client.Table ⟨"B", "K"⟩ "x").Limit (-1)) =
      selectParams (Client.Table ⟨"B", "K"⟩ "x") :=
  ⟨(c10_limit_offset ((Client.Table ⟨"B", "K"⟩ "x").Limit 5) ⟨"B", "K"⟩ "x"
      (-1)).1.mpr (by decide),
   ((c10_limit_offset ((Client.Table ⟨"B", "K"⟩ "x").Limit 5) ⟨"B", "K"⟩ "x"
      (-1)).2.2 (by decide)).1⟩

end Supabase
